import Mathlib

/-!
Shallow embedding of the mccn-engine repository (src/mccn/client.py and
src/mccn/mccn.py) for checking its natural-language specification.

Conventions of the embedding:
- Python exceptions are modelled with `Except Err`; straight-line Python code
  that may raise becomes explicit sequencing in the `Except` monad.
- External libraries (odc.geo, xarray, pystac_client, the mccn.loader and
  mccn.filter and mccn.extent modules, which are not part of the two source
  files) are modelled either as opaque function parameters bundled in
  record types, or, where a claim depends on their behaviour, as definitions
  modelled from the spec (marked `Modelled from the spec:` in their doc
  comment).
- Loader invocations performed by `MCCN.load` and external calls performed by
  `MCCN.__init__` are recorded in an explicit event trace, so that claims
  about which loaders are invoked, and in which order, are statable.
- Machine floats that only flow through opaque external structures are
  modelled as `Int` coordinate values; the core never does float arithmetic.
-/

/-- The Python exception taxonomy of the system, named after the error
taxonomy of the specification; each doc-free constructor carries the message
string where the source builds one.
`configurationError` is the `ValueError` raised by `MCCN.get_geobox`,
`unsupportedAxisLayout` is the `AttributeError` raised by `Mccn._load_stac`,
`loadError` stands for an arbitrary failure escaping an external loader. -/
inductive Err where
  | configurationError (msg : String)
  | catalogUnavailable (endpoint : String)
  | collectionNotFound (collection_id : String)
  | loadError (msg : String)
  | variableConflict
  | unsupportedAxisLayout (msg : String)
  | notImplementedError (msg : String)
  deriving DecidableEq, Repr

/-- The three data modalities of the collection filter. -/
inductive Modality where
  | raster
  | vector
  | point
  deriving DecidableEq, Repr

/-- Opaque handle for an `odc.geo.geobox.GeoBox`; the core treats the geobox
as an opaque value handed to loaders and never inspects it. -/
structure GeoBox where
  tag : Nat
  deriving DecidableEq, Repr

/-- Opaque handle for a `pystac.Item`; the core only moves items between
buckets and hands them to loaders. -/
structure Item where
  iid : String
  deriving DecidableEq, Repr

/-- A resolved `pystac.Collection` descriptor (opaque to the core beyond
its identity). -/
structure Collection where
  cid : String
  deriving DecidableEq, Repr

/-- The `shape` constructor argument of `MCCN.__init__`:
`int | tuple[int, int]`. -/
inductive Shape where
  | single (n : Nat)
  | pair (w h : Nat)
  deriving DecidableEq, Repr

/-- The `asset_key` constructor argument: `str | Mapping[str, str]`
(a mapping is modelled as an association list in insertion order). -/
inductive AssetKey where
  | single (k : String)
  | mapping (m : List (String × String))
  deriving DecidableEq, Repr

/-- Modelled from the spec: `ASSET_KEY`, the default asset-modality key
imported from `mccn.loader.utils` (not under src/); the spec gives the
default as the single key name `"data"`. -/
def ASSET_KEY : AssetKey := AssetKey.single "data"

/-- The `vector_fields` constructor argument:
`Sequence[str] | dict[str, Sequence[str]] | None` (the optional layer is kept
outside, in `Option`). -/
inductive VFields where
  | seq (l : List String)
  | dict (m : List (String × List String))
  deriving DecidableEq, Repr

/-- The `alias_renaming` constructor argument,
`dict[str, tuple[str, str]] | None`, as an association list. -/
abbrev AliasRenaming := List (String × (String × String))

/-- An `xarray.Dataset`: named data variables plus named coordinate axes with
their coordinate values. Only the structure the two source files inspect
(variable names, axis names, axis values) is represented. -/
structure Dataset where
  vars : List String
  coords : List (String × List Int)
  deriving DecidableEq, Repr

/-- The axis (index) names of a dataset, `xx.xindexes` in the source. -/
def Dataset.xindexes (d : Dataset) : List String :=
  d.coords.map Prod.fst

/-- The coordinate values of a named axis (empty when the axis is absent). -/
def Dataset.coordVals (d : Dataset) (a : String) : List Int :=
  ((d.coords.find? (fun p => p.1 = a)).map Prod.snd).getD []

/-- Minimum of a coordinate index, `xx.<axis>.min().item()`; coordinate
indexes are nonempty in practice, the empty-list default is never reached by
any theorem below. -/
def listMin (l : List Int) : Int := l.foldl min (l.headD 0)

/-- Maximum of a coordinate index, `xx.<axis>.max().item()`. -/
def listMax (l : List Int) : Int := l.foldl max (l.headD 0)

/-- The `CollectionFilter` of `mccn.filter` (the module is not under src/):
the three read-only item buckets the client consumes via
`self.collection_filter.raster`, `.vector` and `.point`. -/
structure CollectionFilter where
  raster : List Item
  vector : List Item
  point : List Item
  deriving DecidableEq, Repr

/-- The external world of catalog endpoints as the spec describes it:
which endpoints can be opened, and which collection identifiers each
endpoint holds. -/
structure CatalogWorld where
  reachable : String → Bool
  hasCollection : String → String → Bool

/-- A `pystac_client.Client` handle, identified by the endpoint it was
opened from. -/
structure Client where
  endpoint : String
  deriving DecidableEq, Repr

/-- Modelled from the spec: `pystac_client.Client.open` (external library).
The spec: the resolver signals `CatalogUnavailable` if the endpoint cannot
be opened. -/
def CatalogWorld.clientOpen (W : CatalogWorld) (endpoint : String) :
    Except Err Client :=
  if W.reachable endpoint then Except.ok { endpoint := endpoint }
  else Except.error (Err.catalogUnavailable endpoint)

/-- Modelled from the spec: `pystac_client.Client.from_file` (external
library), for a local catalog file; same failure contract as opening a
remote endpoint. -/
def CatalogWorld.clientFromFile (W : CatalogWorld) (path : String) :
    Except Err Client :=
  if W.reachable path then Except.ok { endpoint := path }
  else Except.error (Err.catalogUnavailable path)

/-- Modelled from the spec: `Client.get_collection` (external library).
The spec: signals `CollectionNotFound` if the identifier is absent. -/
def Client.get_collection (W : CatalogWorld) (c : Client)
    (collection_id : String) : Except Err Collection :=
  if W.hasCollection c.endpoint collection_id then
    Except.ok { cid := collection_id }
  else Except.error (Err.collectionNotFound collection_id)

/-- The external collaborators of `mccn/client.py`: the geobox builder of
`mccn.extent`, the filter constructor of `mccn.filter`, and the three
modality loaders of `mccn.loader` (none of these modules is under src/).
They are opaque function parameters; their argument lists follow the call
sites in `client.py` exactly. -/
structure Externals where
  geoBoxBuilderFromCollection : Collection → Shape → Except Err GeoBox
  mkCollectionFilter : Collection → GeoBox → AssetKey → CollectionFilter
  stac_load_raster : List Item → GeoBox → Option (List String) → String →
    String → String → Except Err Dataset
  stac_load_vector : List Item → GeoBox → String → Option VFields → String →
    String → AssetKey → Option AliasRenaming → Except Err Dataset
  stac_load_point : List Item → GeoBox → AssetKey → Option (List String) →
    String → String → String → String → Option String → Except Err Dataset

/-- The session object built by `MCCN.__init__` in `client.py`: one field per
`self.<field> = ...` assignment of the constructor. -/
structure MCCN where
  endpoint : String
  collection_id : String
  collection : Collection
  shape : Option Shape
  geobox : GeoBox
  asset_key : AssetKey
  collection_filter : CollectionFilter
  x_col : String
  y_col : String
  t_col : String
  bands : Option (List String)
  groupby : String
  vector_fields : Option VFields
  alias_renaming : Option AliasRenaming
  point_fields : Option (List String)
  merge_method : String
  interp_method : Option String
  deriving DecidableEq, Repr

/-- The constructor arguments of `MCCN.__init__` (defaults of the Python
signature are not baked in; every theorem passes all arguments). -/
structure InitArgs where
  endpoint : String
  collection_id : String
  geobox : Option GeoBox
  shape : Option Shape
  asset_key : AssetKey
  x_col : String
  y_col : String
  t_col : String
  bands : Option (List String)
  groupby : String
  vector_fields : Option VFields
  alias_renaming : Option AliasRenaming
  point_fields : Option (List String)
  merge_method : String
  interp_method : Option String
  deriving DecidableEq, Repr

/-- Events recorded while running `MCCN.__init__`, used to state in which
order the constructor touches its external collaborators. -/
inductive InitEvent where
  | catalogCall
  | geoboxDerive
  | filterBuild
  | loaderCall (m : Modality)
  deriving DecidableEq, Repr

/-- `MCCN.get_collection` of `client.py`: dispatch on whether the endpoint
string starts with `"http"`, open the client, then fetch the collection. -/
def MCCN.get_collection (W : CatalogWorld) (endpoint collection_id : String) :
    Except Err Collection :=
  let res :=
    if endpoint.startsWith "http" then W.clientOpen endpoint
    else W.clientFromFile endpoint
  Except.bind res (fun r => Client.get_collection W r collection_id)

/-- `MCCN.get_geobox` of `client.py`: return the caller-supplied geobox if
any, raise `ValueError` when neither geobox nor shape is given, otherwise
derive the geobox via `GeoBoxBuilder.from_collection`. Also returns the
trace of external calls this step makes. -/
def MCCN.get_geobox (E : Externals) (collection : Collection)
    (geobox : Option GeoBox) (shape : Option Shape) :
    List InitEvent × Except Err GeoBox :=
  match geobox with
  | some g => ([], Except.ok g)
  | none =>
    match shape with
    | none =>
      ([], Except.error (Err.configurationError
        "If geobox is not defined, shape must be provided to calculate geobox from collection"))
    | some s =>
      ([InitEvent.geoboxDerive], E.geoBoxBuilderFromCollection collection s)

/-- `MCCN.__init__` of `client.py`, with the trace of external calls it
performs: it first resolves the collection (`self.collection =
self.get_collection(endpoint, collection_id)`), then derives the geobox,
then builds the collection filter, then stores the configuration fields.
No loader is called. -/
def MCCN.init (W : CatalogWorld) (E : Externals) (a : InitArgs) :
    List InitEvent × Except Err MCCN :=
  let tr0 := [InitEvent.catalogCall]
  match MCCN.get_collection W a.endpoint a.collection_id with
  | Except.error e => (tr0, Except.error e)
  | Except.ok collection =>
    match MCCN.get_geobox E collection a.geobox a.shape with
    | (tr1, Except.error e) => (tr0 ++ tr1, Except.error e)
    | (tr1, Except.ok geobox) =>
      let cf := E.mkCollectionFilter collection geobox a.asset_key
      (tr0 ++ tr1 ++ [InitEvent.filterBuild],
        Except.ok
          { endpoint := a.endpoint
            collection_id := a.collection_id
            collection := collection
            shape := a.shape
            geobox := geobox
            asset_key := a.asset_key
            collection_filter := cf
            x_col := a.x_col
            y_col := a.y_col
            t_col := a.t_col
            bands := a.bands
            groupby := a.groupby
            vector_fields := a.vector_fields
            alias_renaming := a.alias_renaming
            point_fields := a.point_fields
            merge_method := a.merge_method
            interp_method := a.interp_method })

/-- `MCCN.load_raster` of `client.py`. -/
def MCCN.load_raster (E : Externals) (self : MCCN) : Except Err Dataset :=
  E.stac_load_raster self.collection_filter.raster self.geobox self.bands
    self.x_col self.y_col self.t_col

/-- `MCCN.load_vector` of `client.py`. -/
def MCCN.load_vector (E : Externals) (self : MCCN) : Except Err Dataset :=
  E.stac_load_vector self.collection_filter.vector self.geobox self.groupby
    self.vector_fields self.x_col self.y_col self.asset_key
    self.alias_renaming

/-- `MCCN.load_point` of `client.py`. -/
def MCCN.load_point (E : Externals) (self : MCCN) : Except Err Dataset :=
  E.stac_load_point self.collection_filter.point self.geobox self.asset_key
    self.point_fields self.x_col self.y_col self.t_col self.merge_method
    self.interp_method

/-- One `if self.collection_filter.<bucket>: items.append(<loader>(...))`
step of `MCCN.load`: when the bucket is non-empty (Python truthiness of a
list) the loader is invoked — recorded in the trace — and its result is
appended to `items`; a raised exception from an earlier step skips the
step entirely. -/
def loadStep (bucket : List Item) (m : Modality) (call : Except Err Dataset)
    (s : List Modality × Except Err (List Dataset)) :
    List Modality × Except Err (List Dataset) :=
  match s with
  | (tr, Except.error e) => (tr, Except.error e)
  | (tr, Except.ok items) =>
    if bucket.isEmpty then (tr, Except.ok items)
    else (tr ++ [m], Except.map (fun d => items ++ [d]) call)

/-- The body of `MCCN.load` up to (and excluding) the final `xr.merge`: the
value of the local variable `items`, together with the trace of loader
invocations. The loader argument lists are those of the call sites inside
`load` itself (`client.py` lines 130-169). -/
def MCCN.loadItems (E : Externals) (self : MCCN) :
    List Modality × Except Err (List Dataset) :=
  loadStep self.collection_filter.point Modality.point
    (E.stac_load_point self.collection_filter.point self.geobox
      self.asset_key self.point_fields self.x_col self.y_col self.t_col
      self.merge_method self.interp_method)
    (loadStep self.collection_filter.vector Modality.vector
      (E.stac_load_vector self.collection_filter.vector self.geobox
        self.groupby self.vector_fields self.x_col self.y_col self.asset_key
        self.alias_renaming)
      (loadStep self.collection_filter.raster Modality.raster
        (E.stac_load_raster self.collection_filter.raster self.geobox
          self.bands self.x_col self.y_col self.t_col)
        ([], Except.ok [])))

/-- Modelled from the spec: `xarray.merge` (external library). The spec
describes the merge step as an outer join on coordinates — axes with
matching names are unified over the union of their values, data variables
from different sources are kept side by side — failing with
`VariableConflict` when two sources define the same data-variable name,
and yielding an empty structure on the empty list. -/
def xr_merge (ds : List Dataset) : Except Err Dataset :=
  let allVars := ds.flatMap Dataset.vars
  if allVars.Nodup then
    let axisNames := (ds.flatMap (fun d => d.coords.map Prod.fst)).dedup
    Except.ok
      { vars := allVars
        coords := axisNames.map (fun a =>
          (a, (ds.flatMap (fun d => d.coordVals a)).dedup)) }
  else Except.error Err.variableConflict

/-- `MCCN.load` of `client.py`: collect the per-modality structures into
`items`, then `return xr.merge(items)`. -/
def MCCN.load (E : Externals) (self : MCCN) :
    List Modality × Except Err Dataset :=
  ((MCCN.loadItems E self).1,
    Except.bind (MCCN.loadItems E self).2 xr_merge)

/-- The legacy `Mccn` session of `mccn/mccn.py`: the fields assigned in its
`__init__` (`self.stac_client`, `self.lat_count`, `self.lon_count`,
`self.bbox`). -/
structure Mccn where
  stac_client : Client
  lat_count : Option Nat
  lon_count : Option Nat
  bbox : Option (List Int)
  deriving DecidableEq, Repr

/-- `Mccn.__init__`: open the STAC client at the given URL and initialise
the three count/bbox fields to `None`. -/
def Mccn.init (W : CatalogWorld) (stac_url : String) : Except Err Mccn :=
  Except.map
    (fun c =>
      { stac_client := c, lat_count := none, lon_count := none, bbox := none })
    (W.clientOpen stac_url)

/-- The external collaborators of `mccn/mccn.py`: the catalog search of
`pystac_client`, `odc.stac.stac_load`, the legacy `mccn.loader`
`stac_load_vector`, the WCS `load_public` pipeline (factory, `get_data`,
`rioxarray.open_rasterio`), the per-entry xarray transformation chain of the
`"dem"` branch (rename, interp, `spatial_ref` copy, `expand_dims`,
`squeeze`, `to_dataset(name="elevation")`), and
`xarray.combine_by_coords`. All are opaque function parameters; argument
lists follow the call sites in `mccn.py`. -/
structure LegacyExternals where
  search : Client → String → List Item
  stac_load : List Item → Option (List String) → String → Option String →
    Option GeoBox → Bool → Except Err Dataset
  stac_load_vector_legacy : List Item → Option GeoBox → Except Err Dataset
  wcs_load_public : String → Option (List Int) → Option String →
    Except Err Dataset
  demTransform : Dataset → Dataset → Dataset
  combine_by_coords : Dataset → Dataset → Except Err Dataset

/-- `Mccn._load_stac` of `mccn.py`: query the collection, call the external
`stac_load`, then derive the bounding box from the spatial axes — `x`/`y`
if both are indexed, else `longitude`/`latitude`, else raise
`AttributeError` — and store it in `self.bbox` (a mutation of the session,
returned here as the updated state). -/
def Mccn.load_stac (LE : LegacyExternals) (self : Mccn) (col_id : String)
    (bands : Option (List String)) (groupby : String) (crs : Option String)
    (geobox : Option GeoBox) (lazy : Bool) : Except Err (Mccn × Dataset) :=
  match LE.stac_load (LE.search self.stac_client col_id) bands groupby crs
      geobox lazy with
  | Except.error e => Except.error e
  | Except.ok xx =>
    if "x" ∈ xx.xindexes ∧ "y" ∈ xx.xindexes then
      let min_lon := listMin (xx.coordVals "x")
      let max_lon := listMax (xx.coordVals "x")
      let min_lat := listMin (xx.coordVals "y")
      let max_lat := listMax (xx.coordVals "y")
      Except.ok
        ({ self with bbox := some [min_lon, min_lat, max_lon, max_lat] }, xx)
    else if "longitude" ∈ xx.xindexes ∧ "latitude" ∈ xx.xindexes then
      let min_lon := listMin (xx.coordVals "longitude")
      let max_lon := listMax (xx.coordVals "longitude")
      let min_lat := listMin (xx.coordVals "latitude")
      let max_lat := listMax (xx.coordVals "latitude")
      Except.ok
        ({ self with bbox := some [min_lon, min_lat, max_lon, max_lat] }, xx)
    else
      Except.error (Err.unsupportedAxisLayout
        "Spatial axes must contain either x and y or longitude and latitude.")

/-- The `for source_name, layer_name in source.items():` loop of
`Mccn.load`: a non-`"dem"` source name raises `NotImplementedError` when its
entry is processed; a `"dem"` entry runs the WCS load and the xarray
stacking chain and rebinds `xx` to the combined dataset. -/
def Mccn.processSource (LE : LegacyExternals) (self : Mccn) (xx : Dataset) :
    List (String × String) → Except Err Dataset
  | [] => Except.ok xx
  | (source_name, layer_name) :: rest =>
    if source_name ≠ "dem" then
      Except.error (Err.notImplementedError
        ("Datacube stacking for " ++ source_name ++ " has not beenimplemented."))
    else
      match LE.wcs_load_public source_name self.bbox (some layer_name) with
      | Except.error e => Except.error e
      | Except.ok yyRaw =>
        let yy := LE.demTransform xx yyRaw
        match LE.combine_by_coords xx yy with
        | Except.error e => Except.error e
        | Except.ok xx2 => Mccn.processSource LE self xx2 rest

/-- `Mccn.load` of `mccn.py`: run `_load_stac`, optionally run the masking
vector load (its result is currently unused by the source), then process the
`source` mapping entry by entry; returns the updated session state together
with the resulting dataset. -/
def Mccn.load (LE : LegacyExternals) (self : Mccn) (col_id : String)
    (bands : Option (List String)) (groupby : String) (crs : Option String)
    (geobox : Option GeoBox) (lazy : Bool)
    (source : Option (List (String × String))) (mask : Bool) :
    Except Err (Mccn × Dataset) :=
  match Mccn.load_stac LE self col_id bands groupby crs geobox lazy with
  | Except.error e => Except.error e
  | Except.ok (self1, xx) =>
    let maskRes : Except Err Unit :=
      if mask then
        match LE.stac_load_vector_legacy (LE.search self1.stac_client col_id)
            geobox with
        | Except.error e => Except.error e
        | Except.ok _ => Except.ok ()
      else Except.ok ()
    match maskRes with
    | Except.error e => Except.error e
    | Except.ok _ =>
      match source with
      | none => Except.ok (self1, xx)
      | some src =>
        match Mccn.processSource LE self1 xx src with
        | Except.error e => Except.error e
        | Except.ok xx2 => Except.ok (self1, xx2)

/-- The four public load operations of the `MCCN` session. -/
inductive LoadOp where
  | loadAll
  | loadRaster
  | loadVector
  | loadPoint
  deriving DecidableEq, Repr

/-- State-passing form of one public `MCCN` operation: the resulting session
state paired with the operation result. The translation of each method body
contains no assignment to a session field, because the source methods
contain none. -/
def MCCN.runOp (E : Externals) (op : LoadOp) (self : MCCN) :
    MCCN × Except Err Dataset :=
  match op with
  | LoadOp.loadAll => (self, (MCCN.load E self).2)
  | LoadOp.loadRaster => (self, MCCN.load_raster E self)
  | LoadOp.loadVector => (self, MCCN.load_vector E self)
  | LoadOp.loadPoint => (self, MCCN.load_point E self)

/-- The session state after a sequence of public `MCCN` load operations. -/
def MCCN.runOps (E : Externals) (self : MCCN) (ops : List LoadOp) : MCCN :=
  ops.foldl (fun s op => (MCCN.runOp E op s).1) self

/-- Refinement (spec side): collect the per-modality structures of a
session through the standalone public operations `load_raster`,
`load_vector`, `load_point`, one entry per non-empty bucket, in the fixed
raster, vector, point order. This is the claimed description of what
`MCCN.load` gathers before merging; it is compared with `MCCN.loadItems`,
whose loader calls are written out inside `load` itself. -/
def MCCN.standaloneItems (E : Externals) (self : MCCN) :
    Except Err (List Dataset) :=
  let s1 : Except Err (List Dataset) :=
    if self.collection_filter.raster.isEmpty then Except.ok []
    else Except.map (fun d => [d]) (MCCN.load_raster E self)
  let s2 : Except Err (List Dataset) :=
    if self.collection_filter.vector.isEmpty then s1
    else Except.bind s1 (fun items =>
      Except.map (fun d => items ++ [d]) (MCCN.load_vector E self))
  if self.collection_filter.point.isEmpty then s2
  else Except.bind s2 (fun items =>
    Except.map (fun d => items ++ [d]) (MCCN.load_point E self))

/-! Concrete fixtures used by witnesses and counterexamples. -/

/-- A catalog world in which every endpoint is reachable and holds every
collection. -/
def trivWorld : CatalogWorld :=
  { reachable := fun _ => true, hasCollection := fun _ _ => true }

/-- A catalog world in which no endpoint can be opened. -/
def downWorld : CatalogWorld :=
  { reachable := fun _ => false, hasCollection := fun _ _ => false }

/-- A catalog world whose endpoints open but hold no collections. -/
def emptyWorld : CatalogWorld :=
  { reachable := fun _ => true, hasCollection := fun _ _ => false }

/-- Sample raster output dataset. -/
def dsR : Dataset := { vars := ["red"], coords := [("x", [0, 1]), ("y", [0, 1])] }

/-- Sample vector output dataset. -/
def dsV : Dataset := { vars := ["zone"], coords := [("x", [0, 1]), ("y", [0, 1])] }

/-- Sample point output dataset. -/
def dsP : Dataset := { vars := ["temp"], coords := [("x", [0, 1]), ("y", [0, 1]), ("time", [5])] }

/-- Externals whose loaders always succeed with the sample datasets. -/
def okExternals : Externals :=
  { geoBoxBuilderFromCollection := fun _ _ => Except.ok { tag := 7 }
    mkCollectionFilter := fun _ _ _ => { raster := [], vector := [], point := [] }
    stac_load_raster := fun _ _ _ _ _ _ => Except.ok dsR
    stac_load_vector := fun _ _ _ _ _ _ _ _ => Except.ok dsV
    stac_load_point := fun _ _ _ _ _ _ _ _ _ => Except.ok dsP }

/-- A sample session over a given collection filter (the remaining fields
are the Python defaults of `MCCN.__init__`). -/
def sampleSession (cf : CollectionFilter) : MCCN :=
  { endpoint := "http://catalog.example"
    collection_id := "col"
    collection := { cid := "col" }
    shape := none
    geobox := { tag := 7 }
    asset_key := ASSET_KEY
    collection_filter := cf
    x_col := "x"
    y_col := "y"
    t_col := "time"
    bands := none
    groupby := "id"
    vector_fields := none
    alias_renaming := none
    point_fields := none
    merge_method := "mean"
    interp_method := some "nearest" }

/-- Filter with a non-empty raster bucket, empty vector bucket and
non-empty point bucket. -/
def cfRP : CollectionFilter :=
  { raster := [{ iid := "r1" }], vector := [], point := [{ iid := "p1" }] }

/-- Filter with non-empty raster and vector buckets and an empty point
bucket. -/
def cfRV : CollectionFilter :=
  { raster := [{ iid := "r1" }], vector := [{ iid := "v1" }], point := [] }

/-- Filter with all three buckets empty. -/
def cfNone : CollectionFilter := { raster := [], vector := [], point := [] }

/-- C1: For every session, `load()` invokes the modality loaders in the
fixed order raster, then vector, then point, invoking a loader exactly once
for each non-empty bucket of the session's collection filter, and invoking
no loader (and inserting no placeholder entry) for a bucket that is empty.
Stated over the run in which every invoked loader returns (the invocation
trace and the collected `items` list are both exactly one entry per
non-empty bucket, in raster, vector, point order). -/
theorem load_invokes_loaders_in_order_once_per_nonempty_bucket
    (E : Externals) (self : MCCN) (dr dv dp : Dataset)
    (hr : self.collection_filter.raster.isEmpty = false →
      E.stac_load_raster self.collection_filter.raster self.geobox self.bands
        self.x_col self.y_col self.t_col = Except.ok dr)
    (hv : self.collection_filter.vector.isEmpty = false →
      E.stac_load_vector self.collection_filter.vector self.geobox
        self.groupby self.vector_fields self.x_col self.y_col self.asset_key
        self.alias_renaming = Except.ok dv)
    (hp : self.collection_filter.point.isEmpty = false →
      E.stac_load_point self.collection_filter.point self.geobox
        self.asset_key self.point_fields self.x_col self.y_col self.t_col
        self.merge_method self.interp_method = Except.ok dp) :
    MCCN.loadItems E self =
      ((if self.collection_filter.raster.isEmpty then [] else [Modality.raster]) ++
        (if self.collection_filter.vector.isEmpty then [] else [Modality.vector]) ++
        (if self.collection_filter.point.isEmpty then [] else [Modality.point]),
        Except.ok
          ((if self.collection_filter.raster.isEmpty then [] else [dr]) ++
            (if self.collection_filter.vector.isEmpty then [] else [dv]) ++
            (if self.collection_filter.point.isEmpty then [] else [dp]))) := by
  cases hre : self.collection_filter.raster.isEmpty <;>
    cases hve : self.collection_filter.vector.isEmpty <;>
      cases hpe : self.collection_filter.point.isEmpty <;>
        simp [MCCN.loadItems, loadStep, hre, hve, hpe, hr, hv, hp,
          Except.map]

/-- Witness for C1: a session with raster and point items but no vector
items invokes exactly the raster and the point loader, in this order, and
collects exactly their two outputs. -/
theorem load_invokes_loaders_witness :
    MCCN.loadItems okExternals (sampleSession cfRP) =
      ([Modality.raster, Modality.point], Except.ok [dsR, dsP]) := by
  have h := load_invokes_loaders_in_order_once_per_nonempty_bucket
    okExternals (sampleSession cfRP) dsR dsV dsP
    (fun _ => rfl) (fun _ => rfl) (fun _ => rfl)
  simpa [sampleSession, cfRP] using h

/-- C5: For every session whose raster, vector, and point buckets are all
empty, `load()` returns an empty output structure and does not raise an
error. -/
theorem load_all_buckets_empty_returns_empty
    (E : Externals) (self : MCCN)
    (hr : self.collection_filter.raster = [])
    (hv : self.collection_filter.vector = [])
    (hp : self.collection_filter.point = []) :
    MCCN.load E self = ([], Except.ok { vars := [], coords := [] }) := by
  simp [MCCN.load, MCCN.loadItems, loadStep, hr, hv, hp, xr_merge,
    Except.bind]

/-- Witness for C5: the sample session with an all-empty filter loads to the
empty dataset. -/
theorem load_all_buckets_empty_witness :
    MCCN.load okExternals (sampleSession cfNone) =
      ([], Except.ok { vars := [], coords := [] }) :=
  load_all_buckets_empty_returns_empty okExternals (sampleSession cfNone)
    rfl rfl rfl

/-- C9: For every session, the per-modality structures `load()` collects
before merging coincide with the results of the corresponding standalone
public operations (`load_raster`, `load_vector`, `load_point`) on the same
session, collected once per non-empty bucket in the same order: the loader
calls written out inside `load` receive exactly the arguments the
standalone operations pass. -/
theorem load_collects_standalone_results (E : Externals) (self : MCCN) :
    (MCCN.loadItems E self).2 = MCCN.standaloneItems E self := by
  unfold MCCN.loadItems MCCN.standaloneItems MCCN.load_raster
    MCCN.load_vector MCCN.load_point
  cases hre : self.collection_filter.raster.isEmpty <;>
    cases hve : self.collection_filter.vector.isEmpty <;>
      cases hpe : self.collection_filter.point.isEmpty <;>
        cases hr : E.stac_load_raster self.collection_filter.raster
            self.geobox self.bands self.x_col self.y_col self.t_col <;>
          cases hv : E.stac_load_vector self.collection_filter.vector
              self.geobox self.groupby self.vector_fields self.x_col
              self.y_col self.asset_key self.alias_renaming <;>
            cases hp : E.stac_load_point self.collection_filter.point
                self.geobox self.asset_key self.point_fields self.x_col
                self.y_col self.t_col self.merge_method
                self.interp_method <;>
              simp [loadStep, hre, hve, hpe, hr, hv, hp, Except.map,
                Except.bind]

/-- Externals whose raster and vector loaders both return a data variable
named `"dup"`. -/
def dupExternals : Externals :=
  { okExternals with
      stac_load_raster := fun _ _ _ _ _ _ =>
        Except.ok { vars := ["dup"], coords := [("x", [0, 1])] }
      stac_load_vector := fun _ _ _ _ _ _ _ _ =>
        Except.ok { vars := ["dup"], coords := [("x", [0, 1])] } }

/-- C2: For every session in which two invoked loaders return a data
variable with the same name, `load()` fails with `VariableConflict` and
returns no partial output structure (the result is the error alone). -/
theorem load_duplicate_variable_fails_with_conflict
    (E : Externals) (self : MCCN) (tr : List Modality)
    (pre mid post : List Dataset) (d1 d2 : Dataset) (v : String)
    (hitems : MCCN.loadItems E self =
      (tr, Except.ok (pre ++ d1 :: (mid ++ d2 :: post))))
    (hv1 : v ∈ d1.vars) (hv2 : v ∈ d2.vars) :
    MCCN.load E self = (tr, Except.error Err.variableConflict) := by
  have hnd : ¬ ((pre ++ d1 :: (mid ++ d2 :: post)).flatMap Dataset.vars).Nodup := by
    rw [List.nodup_iff_count_le_one]
    intro h
    have hcount := h v
    have h1 : 0 < d1.vars.count v := List.count_pos_iff.mpr hv1
    have h2 : 0 < d2.vars.count v := List.count_pos_iff.mpr hv2
    simp [List.flatMap_append, List.flatMap_cons, List.count_append] at hcount
    omega
  have hmerge : xr_merge (pre ++ d1 :: (mid ++ d2 :: post)) =
      Except.error Err.variableConflict := by
    simp only [xr_merge]
    rw [if_neg hnd]
  simp only [MCCN.load, hitems, Except.bind, hmerge]

/-- Witness for C2: raster and vector loaders both return the variable
`"dup"`, and the merged load fails with `VariableConflict`. -/
theorem load_duplicate_variable_witness :
    MCCN.load dupExternals (sampleSession cfRV) =
      ([Modality.raster, Modality.vector], Except.error Err.variableConflict) := by
  exact load_duplicate_variable_fails_with_conflict dupExternals
    (sampleSession cfRV) [Modality.raster, Modality.vector] [] [] []
    { vars := ["dup"], coords := [("x", [0, 1])] }
    { vars := ["dup"], coords := [("x", [0, 1])] } "dup" rfl
    (by simp) (by simp)

/-- Externals whose vector loader fails. -/
def failVectorExternals : Externals :=
  { okExternals with
      stac_load_vector := fun _ _ _ _ _ _ _ _ =>
        Except.error (Err.loadError "vector boom") }

/-- C6: For every session, if any invoked modality loader fails, `load()`
propagates that failure unchanged and returns no partial merged result:
whichever invoked loader fails first (raster; vector after a skipped or
successful raster step; point after skipped or successful raster and vector
steps), `load()` returns exactly that loader's error. -/
theorem load_propagates_loader_failure (E : Externals) (self : MCCN)
    (e : Err) (dr dv : Dataset) :
    (self.collection_filter.raster.isEmpty = false →
      E.stac_load_raster self.collection_filter.raster self.geobox self.bands
        self.x_col self.y_col self.t_col = Except.error e →
      (MCCN.load E self).2 = Except.error e)
    ∧ (self.collection_filter.vector.isEmpty = false →
      (self.collection_filter.raster.isEmpty = true ∨
        E.stac_load_raster self.collection_filter.raster self.geobox
          self.bands self.x_col self.y_col self.t_col = Except.ok dr) →
      E.stac_load_vector self.collection_filter.vector self.geobox
        self.groupby self.vector_fields self.x_col self.y_col self.asset_key
        self.alias_renaming = Except.error e →
      (MCCN.load E self).2 = Except.error e)
    ∧ (self.collection_filter.point.isEmpty = false →
      (self.collection_filter.raster.isEmpty = true ∨
        E.stac_load_raster self.collection_filter.raster self.geobox
          self.bands self.x_col self.y_col self.t_col = Except.ok dr) →
      (self.collection_filter.vector.isEmpty = true ∨
        E.stac_load_vector self.collection_filter.vector self.geobox
          self.groupby self.vector_fields self.x_col self.y_col
          self.asset_key self.alias_renaming = Except.ok dv) →
      E.stac_load_point self.collection_filter.point self.geobox
        self.asset_key self.point_fields self.x_col self.y_col self.t_col
        self.merge_method self.interp_method = Except.error e →
      (MCCN.load E self).2 = Except.error e) := by
  refine ⟨?_, ?_, ?_⟩
  · intro hre hf
    simp [MCCN.load, MCCN.loadItems, loadStep, hre, hf, Except.map,
      Except.bind]
  · intro hve hrok hf
    cases hre : self.collection_filter.raster.isEmpty <;>
      rcases hrok with hre2 | hrok <;>
        simp_all [MCCN.load, MCCN.loadItems, loadStep, Except.map,
          Except.bind]
  · intro hpe hrok hvok hf
    cases hre : self.collection_filter.raster.isEmpty <;>
      cases hve : self.collection_filter.vector.isEmpty <;>
        rcases hrok with hre2 | hrok <;> rcases hvok with hve2 | hvok <;>
          simp_all [MCCN.load, MCCN.loadItems, loadStep, Except.map,
            Except.bind]

/-- Witness for C6: with a failing vector loader in a session holding raster
and vector items, the whole load returns exactly the vector loader's
error. -/
theorem load_propagates_loader_failure_witness :
    (MCCN.load failVectorExternals (sampleSession cfRV)).2 =
      Except.error (Err.loadError "vector boom") :=
  (load_propagates_loader_failure failVectorExternals (sampleSession cfRV)
    (Err.loadError "vector boom") dsR dsV).2.1 rfl (Or.inr rfl) rfl

/-- C7: the catalog resolver signals `CatalogUnavailable` for an endpoint
that cannot be opened (on both the remote and the local-file dispatch
branch of `MCCN.get_collection`), and `CollectionNotFound` for a reachable
endpoint whose collection identifier is absent. -/
theorem get_collection_error_modes (W : CatalogWorld)
    (endpoint collection_id : String) :
    (W.reachable endpoint = false →
      MCCN.get_collection W endpoint collection_id =
        Except.error (Err.catalogUnavailable endpoint))
    ∧ (W.reachable endpoint = true →
      W.hasCollection endpoint collection_id = false →
      MCCN.get_collection W endpoint collection_id =
        Except.error (Err.collectionNotFound collection_id)) := by
  constructor
  · intro hu
    by_cases h : endpoint.startsWith "http" <;>
      simp [MCCN.get_collection, CatalogWorld.clientOpen,
        CatalogWorld.clientFromFile, Client.get_collection, h, hu,
        Except.bind]
  · intro hr hc
    by_cases h : endpoint.startsWith "http" <;>
      simp [MCCN.get_collection, CatalogWorld.clientOpen,
        CatalogWorld.clientFromFile, Client.get_collection, h, hr, hc,
        Except.bind]

/-- Witness for C7: an unreachable endpoint yields `CatalogUnavailable`, and
a reachable endpoint without the requested collection yields
`CollectionNotFound`. -/
theorem get_collection_error_modes_witness :
    MCCN.get_collection downWorld "http://cat" "c" =
        Except.error (Err.catalogUnavailable "http://cat")
    ∧ MCCN.get_collection emptyWorld "catalog.json" "c" =
        Except.error (Err.collectionNotFound "c") :=
  ⟨(get_collection_error_modes downWorld "http://cat" "c").1 rfl,
    (get_collection_error_modes emptyWorld "catalog.json" "c").2 rfl rfl⟩

/-- A fresh legacy session as built by `Mccn.__init__` on a reachable
endpoint. -/
def legacySession : Mccn :=
  { stac_client := { endpoint := "http://legacy" }
    lat_count := none
    lon_count := none
    bbox := none }

/-- Legacy externals whose `stac_load` returns a dataset indexed by a `t`
axis only (neither `x`/`y` nor `longitude`/`latitude`). -/
def noAxisLegacyExternals : LegacyExternals :=
  { search := fun _ _ => []
    stac_load := fun _ _ _ _ _ _ =>
      Except.ok { vars := ["b"], coords := [("t", [0])] }
    stac_load_vector_legacy := fun _ _ => Except.ok { vars := [], coords := [] }
    wcs_load_public := fun _ _ _ => Except.ok { vars := [], coords := [] }
    demTransform := fun _ yy => yy
    combine_by_coords := fun xx _ => Except.ok xx }

/-- C8: For every loaded dataset whose spatial axes contain neither the pair
`x`/`y` nor the pair `longitude`/`latitude`, `Mccn._load_stac` fails with
the `AttributeError` the spec names `UnsupportedAxisLayout`. -/
theorem load_stac_unsupported_axis_layout (LE : LegacyExternals)
    (self : Mccn) (col_id : String) (bands : Option (List String))
    (groupby : String) (crs : Option String) (geobox : Option GeoBox)
    (lazy : Bool) (xx : Dataset)
    (hload : LE.stac_load (LE.search self.stac_client col_id) bands groupby
      crs geobox lazy = Except.ok xx)
    (hxy : ¬ ("x" ∈ xx.xindexes ∧ "y" ∈ xx.xindexes))
    (hll : ¬ ("longitude" ∈ xx.xindexes ∧ "latitude" ∈ xx.xindexes)) :
    Mccn.load_stac LE self col_id bands groupby crs geobox lazy =
      Except.error (Err.unsupportedAxisLayout
        "Spatial axes must contain either x and y or longitude and latitude.") := by
  simp [Mccn.load_stac, hload, hxy, hll]

/-- Witness for C8: a dataset indexed only by `t` makes `_load_stac` raise
the unsupported-axis-layout error. -/
theorem load_stac_unsupported_axis_layout_witness :
    Mccn.load_stac noAxisLegacyExternals legacySession "col" none "id" none
        none false =
      Except.error (Err.unsupportedAxisLayout
        "Spatial axes must contain either x and y or longitude and latitude.") :=
  load_stac_unsupported_axis_layout noAxisLegacyExternals legacySession
    "col" none "id" none none false
    { vars := ["b"], coords := [("t", [0])] } rfl (by decide) (by decide)

/-- Constructor arguments supplying neither a geobox nor a shape. -/
def noFrameArgs : InitArgs :=
  { endpoint := "http://catalog.example"
    collection_id := "col"
    geobox := none
    shape := none
    asset_key := ASSET_KEY
    x_col := "x"
    y_col := "y"
    t_col := "time"
    bands := none
    groupby := "id"
    vector_fields := none
    alias_renaming := none
    point_fields := none
    merge_method := "mean"
    interp_method := some "nearest" }

/-- Counterexample for C3: with neither geobox nor shape supplied,
construction does fail with the configuration `ValueError`, but only after
the catalog call has been attempted — the catalog call event precedes the
failure in the constructor trace, contradicting the claim that the failure
occurs before any catalog call. -/
theorem init_missing_frame_counterexample :
    MCCN.init trivWorld okExternals noFrameArgs =
      ([InitEvent.catalogCall],
        Except.error (Err.configurationError
          "If geobox is not defined, shape must be provided to calculate geobox from collection"))
    ∧ InitEvent.catalogCall ∈ (MCCN.init trivWorld okExternals noFrameArgs).1 := by
  have h1 : MCCN.init trivWorld okExternals noFrameArgs =
      ([InitEvent.catalogCall],
        Except.error (Err.configurationError
          "If geobox is not defined, shape must be provided to calculate geobox from collection")) := by
    by_cases h : ("http://catalog.example".startsWith "http") <;>
      simp [MCCN.init, MCCN.get_collection, MCCN.get_geobox, trivWorld,
        CatalogWorld.clientOpen, CatalogWorld.clientFromFile,
        Client.get_collection, Except.bind, noFrameArgs, h]
  exact ⟨h1, by rw [h1]; simp⟩

/-- C3 (amended): if neither a geobox nor a shape is supplied, session
construction fails with the configuration `ValueError` after the catalog
resolution call (which is attempted first and here succeeds) and before any
loader call: the constructor trace holds exactly the catalog call and no
loader event. -/
theorem init_missing_frame_fails_after_catalog_before_loaders
    (W : CatalogWorld) (E : Externals) (a : InitArgs) (c : Collection)
    (hg : a.geobox = none) (hs : a.shape = none)
    (hc : MCCN.get_collection W a.endpoint a.collection_id = Except.ok c) :
    MCCN.init W E a =
      ([InitEvent.catalogCall],
        Except.error (Err.configurationError
          "If geobox is not defined, shape must be provided to calculate geobox from collection"))
    ∧ ∀ m, InitEvent.loaderCall m ∉ (MCCN.init W E a).1 := by
  have h1 : MCCN.init W E a =
      ([InitEvent.catalogCall],
        Except.error (Err.configurationError
          "If geobox is not defined, shape must be provided to calculate geobox from collection")) := by
    simp [MCCN.init, hc, MCCN.get_geobox, hg, hs]
  exact ⟨h1, by rw [h1]; simp⟩

/-- Witness for the amended C3: the concrete no-frame construction fails
with the configuration error and its trace is exactly the catalog call. -/
theorem init_missing_frame_amended_witness :
    MCCN.init trivWorld okExternals noFrameArgs =
      ([InitEvent.catalogCall],
        Except.error (Err.configurationError
          "If geobox is not defined, shape must be provided to calculate geobox from collection")) := by
  have hc : MCCN.get_collection trivWorld noFrameArgs.endpoint
      noFrameArgs.collection_id = Except.ok { cid := "col" } := by
    by_cases h : ("http://catalog.example".startsWith "http") <;>
      simp [MCCN.get_collection, trivWorld, CatalogWorld.clientOpen,
        CatalogWorld.clientFromFile, Client.get_collection, Except.bind,
        noFrameArgs, h]
  exact (init_missing_frame_fails_after_catalog_before_loaders trivWorld
    okExternals noFrameArgs { cid := "col" } rfl rfl hc).1

/-- Legacy externals whose `stac_load` returns a dataset gridded on `x` and
`y`, so that `_load_stac` derives a bounding box. -/
def bboxLegacyExternals : LegacyExternals :=
  { search := fun _ _ => []
    stac_load := fun _ _ _ _ _ _ =>
      Except.ok { vars := ["band"], coords := [("x", [0, 2]), ("y", [1, 3])] }
    stac_load_vector_legacy := fun _ _ => Except.ok { vars := [], coords := [] }
    wcs_load_public := fun _ _ _ => Except.ok { vars := [], coords := [] }
    demTransform := fun _ yy => yy
    combine_by_coords := fun xx _ => Except.ok xx }

/-- Counterexample for C4: the legacy `Mccn.load` mutates session-owned
state after construction — one load call rewrites the session's `bbox`
field from `None` (its value at construction) to the bounding box derived
inside `_load_stac`, so the session does not hold the same values after a
load call as immediately after construction. -/
theorem legacy_load_mutates_bbox_counterexample :
    Mccn.init trivWorld "http://legacy" = Except.ok legacySession
    ∧ Mccn.load bboxLegacyExternals legacySession "col" none "id" none none
        false none false =
      Except.ok ({ legacySession with bbox := some [0, 1, 2, 3] },
        { vars := ["band"], coords := [("x", [0, 2]), ("y", [1, 3])] })
    ∧ ({ legacySession with bbox := some [0, 1, 2, 3] } : Mccn).bbox ≠
        legacySession.bbox := by
  refine ⟨?_, by rfl, by simp [legacySession]⟩
  by_cases h : ("http://legacy".startsWith "http") <;>
    simp [Mccn.init, trivWorld, CatalogWorld.clientOpen, legacySession,
      Except.map]

/-- C4 (amended): the four public operations of the `MCCN` session
(`load`, `load_raster`, `load_vector`, `load_point`) mutate no
session-owned state — after any sequence of load calls the session, hence
its geobox, collection filter and every configuration field, is exactly the
one built at construction. (The legacy `Mccn.load` does not satisfy this:
it updates the session's `bbox` field, per the counterexample.) -/
theorem mccn_public_ops_do_not_mutate_session (E : Externals) (self : MCCN)
    (ops : List LoadOp) : MCCN.runOps E self ops = self := by
  induction ops generalizing self with
  | nil => rfl
  | cons op rest ih =>
    have hstep : (MCCN.runOp E op self).1 = self := by cases op <;> rfl
    calc MCCN.runOps E self (op :: rest)
        = MCCN.runOps E (MCCN.runOp E op self).1 rest := rfl
      _ = MCCN.runOps E self rest := by rw [hstep]
      _ = self := ih self

/-- `Mccn.processSource` splits over list append: the entries of the first
segment are processed first, and the second segment is processed on the
dataset the first segment produced. -/
theorem processSource_append (LE : LegacyExternals) (self : Mccn)
    (xx : Dataset) (l1 l2 : List (String × String)) :
    Mccn.processSource LE self xx (l1 ++ l2) =
      Except.bind (Mccn.processSource LE self xx l1)
        (fun xx2 => Mccn.processSource LE self xx2 l2) := by
  induction l1 generalizing xx with
  | nil => simp [Mccn.processSource, Except.bind]
  | cons hd tl ih =>
    obtain ⟨source_name, layer_name⟩ := hd
    by_cases hname : source_name = "dem"
    · subst hname
      cases hw : LE.wcs_load_public "dem" self.bbox (some layer_name) with
      | error e => simp [Mccn.processSource, hw, Except.bind]
      | ok yyRaw =>
        cases hcmb : LE.combine_by_coords xx (LE.demTransform xx yyRaw) with
        | error e => simp [Mccn.processSource, hw, hcmb, Except.bind]
        | ok xx2 => simp [Mccn.processSource, hw, hcmb, Except.bind, ih]
    · simp [Mccn.processSource, hname, Except.bind]

/-- C10: a call to the legacy `Mccn.load` with a non-`None` source mapping
holding an entry whose key is not `"dem"` raises `NotImplementedError` when
that entry is processed (after the entries before it processed
successfully); only the source name `"dem"` is accepted for datacube
stacking. -/
theorem legacy_load_rejects_non_dem_source
    (LE : LegacyExternals) (self self1 : Mccn) (col_id : String)
    (bands : Option (List String)) (groupby : String) (crs : Option String)
    (geobox : Option GeoBox) (lazy : Bool) (mask : Bool)
    (xx xx2 : Dataset) (pre rest : List (String × String))
    (source_name layer_name : String)
    (hstac : Mccn.load_stac LE self col_id bands groupby crs geobox lazy =
      Except.ok (self1, xx))
    (hmask : mask = false ∨ ∃ d,
      LE.stac_load_vector_legacy (LE.search self1.stac_client col_id)
        geobox = Except.ok d)
    (hpre : Mccn.processSource LE self1 xx pre = Except.ok xx2)
    (hname : source_name ≠ "dem") :
    Mccn.load LE self col_id bands groupby crs geobox lazy
        (some (pre ++ (source_name, layer_name) :: rest)) mask =
      Except.error (Err.notImplementedError
        ("Datacube stacking for " ++ source_name ++
          " has not beenimplemented.")) := by
  have hsrc : Mccn.processSource LE self1 xx
      (pre ++ (source_name, layer_name) :: rest) =
      Except.error (Err.notImplementedError
        ("Datacube stacking for " ++ source_name ++
          " has not beenimplemented.")) := by
    rw [processSource_append, hpre]
    simp [Except.bind, Mccn.processSource, hname]
  rcases hmask with hm | ⟨d, hd⟩
  · simp [Mccn.load, hstac, hm, hsrc]
  · cases mask <;> simp [Mccn.load, hstac, hd, hsrc]

/-- Witness for C10: a source mapping with a processed `"dem"` entry
followed by a `"rainfall"` entry makes the legacy load fail with
`NotImplementedError` for `"rainfall"`. -/
theorem legacy_load_rejects_non_dem_source_witness :
    Mccn.load bboxLegacyExternals legacySession "col" none "id" none none
        false (some [("dem", "layer1"), ("rainfall", "layer2")]) false =
      Except.error (Err.notImplementedError
        ("Datacube stacking for " ++ "rainfall" ++
          " has not beenimplemented.")) :=
  legacy_load_rejects_non_dem_source bboxLegacyExternals legacySession
    { legacySession with bbox := some [0, 1, 2, 3] } "col" none "id" none
    none false false
    { vars := ["band"], coords := [("x", [0, 2]), ("y", [1, 3])] }
    { vars := ["band"], coords := [("x", [0, 2]), ("y", [1, 3])] }
    [("dem", "layer1")] [] "rainfall" "layer2" rfl (Or.inl rfl) rfl
    (by decide)
